import Mathlib

/--
Shallow embedding of the session state and validation engine of
`tools1.py` (VoiceAgentLivekit).  Python dictionaries are modelled as
ordered association lists (insertion order preserved, updates in place),
Python `None` as `Option.none`, and the module-level globals
(`sessions_data`, `current_session_id`) as explicit values threaded
through the operations.  File input and output is modelled by letting
`save_session` return the record it writes and `load_session` consume the
content found for the session file; an I/O or parse exception is modelled
by an explicit error case, since the Python code catches every exception
and turns it into a result string.
-/
structure TranscriptEntry where
  speaker : String
  text : String
  timestamp : String
  deriving DecidableEq

/-- In-memory state of one session: the value stored in the
`sessions_data` dictionary of `tools1.py`.  The onboarding state is an
ordered association list because `load_session` may install a JSON object
with missing or extra keys, exactly like the Python dict it replaces. -/
structure SessionData where
  onboarding_state : List (String × Option String)
  conversation_log : List TranscriptEntry
  deriving DecidableEq

/-- Lookup in a Python-style dict (`k in d` / `d[k]`). -/
def alistLookup {α : Type} : List (String × α) → String → Option α
  | [], _ => none
  | (k, a) :: rest, key => if k = key then some a else alistLookup rest key

/-- Assignment in a Python-style dict (`d[k] = a`): replaces in place when
the key exists, appends otherwise, preserving insertion order. -/
def alistSet {α : Type} : List (String × α) → String → α → List (String × α)
  | [], key, a => [(key, a)]
  | (k, b) :: rest, key, a =>
      if k = key then (key, a) :: rest else (k, b) :: alistSet rest key a

/-- The module-level `sessions_data : Dict[str, Dict]` of `tools1.py`. -/
abbrev SessionsMap := List (String × SessionData)

/-- The fresh per-session value created by `_get_session_data`. -/
def default_onboarding : List (String × Option String) :=
  [("name", none), ("email", none), ("phone", none), ("country", none)]

/-- A session as first created: four null fields, empty log. -/
def defaultSession : SessionData :=
  { onboarding_state := default_onboarding, conversation_log := [] }

/-- `_get_session_data` of `tools1.py`: get-or-create.  Returns the
session value together with the (possibly extended) map. -/
def _get_session_data (m : SessionsMap) (sid : String) : SessionData × SessionsMap :=
  match alistLookup m sid with
  | some d => (d, m)
  | none => (defaultSession, m ++ [(sid, defaultSession)])

/-- The session value an operation would see for `sid` (the read part of
`_get_session_data`, which creates the default value on first access). -/
def observeSession (m : SessionsMap) (sid : String) : SessionData :=
  (alistLookup m sid).getD defaultSession

/-- Initial value of the module-level global `current_session_id` in
`tools1.py` (line 179): the empty string, before any
`set_current_session_id` call. -/
def current_session_id : String := ""

/-- `name` rule of the `UserOnboarding` pydantic model: `min_length=2`,
`max_length=100` on the raw value.  (`strip_whitespace=True` is not a
pydantic v2 `Field` argument and has no effect, so no trimming occurs.) -/
def nameOk (v : String) : Bool :=
  decide (2 ≤ v.length) && decide (v.length ≤ 100)

def isDigitChar (c : Char) : Bool := decide ('0' ≤ c) && decide (c ≤ '9')

def isNonZeroDigit (c : Char) : Bool := decide ('1' ≤ c) && decide (c ≤ '9')

/-- Body of the phone pattern after the optional leading plus:
`[1-9]\d{1,14}` anchored at both ends. -/
def phoneCore : List Char → Bool
  | [] => false
  | c :: rest =>
      isNonZeroDigit c && rest.all isDigitChar &&
        decide (1 ≤ rest.length) && decide (rest.length ≤ 14)

/-- `phone` rule of the `UserOnboarding` pydantic model: the raw value
must match `^\+?[1-9]\d{1,14}$` (no trimming; see `nameOk`). -/
def phoneOk (v : String) : Bool :=
  match v.data with
  | '+' :: rest => phoneCore rest
  | l => phoneCore l

/-- The two validation rules of `UserOnboarding` that live in external
libraries, kept abstract: `EmailStr` (email-validator) and the
`pycountry` country list, plus the text `str(e)` of a pydantic
`ValidationError`, which the operations embed in their result strings but
never inspect. -/
structure ExternalValidators where
  emailOk : String → Bool
  countryOk : String → Bool
  errMsg : List (String × Option String) → String

/-- Rule applied by `UserOnboarding` to one keyword argument.  Keys other
than the four declared fields are ignored (pydantic v2 default
`extra='ignore'`). -/
def fieldRuleOk (ev : ExternalValidators) (k v : String) : Bool :=
  if k = "name" then nameOk v
  else if k = "email" then ev.emailOk v
  else if k = "phone" then phoneOk v
  else if k = "country" then ev.countryOk v
  else true

/-- One entry of the keyword dict passed to `UserOnboarding(**temp_data)`:
a `None` value always passes (every field is `Optional`). -/
def checkEntry (ev : ExternalValidators) (q : String × Option String) : Bool :=
  match q.2 with
  | none => true
  | some v => fieldRuleOk ev q.1 v

/-- `UserOnboarding(**d)` succeeds iff every entry of `d` passes its
field rule. -/
def UserOnboarding_validate (ev : ExternalValidators) (d : List (String × Option String)) : Bool :=
  d.all (checkEntry ev)

/-- Python `str.startswith`, character based. -/
def pyStartsWith (s pre : String) : Bool := pre.data.isPrefixOf s.data

/-- Python `str.capitalize`: first character upper-cased, the rest
lower-cased. -/
def pyCapitalize (s : String) : String :=
  match s.data with
  | [] => ""
  | c :: rest => ⟨c.toUpper :: rest.map Char.toLower⟩

/-- Python `str.strip` on character lists (used only to state what the
spec means by trimming; the code itself never trims). -/
def pyStrip (s : String) : String :=
  ⟨((s.data.dropWhile Char.isWhitespace).reverse.dropWhile Char.isWhitespace).reverse⟩

/-- `", ".join(l)`. -/
def joinComma (l : List String) : String := String.intercalate ", " l

/-- Message-computing core of `validate_field` (`tools1.py` 248-280): the
result string depends only on the onboarding dict of the current
session. -/
def validate_core (ev : ExternalValidators) (st : List (String × Option String))
    (field value : String) : String :=
  match alistLookup st field with
  | none => "Invalid field: " ++ field ++ ". Must be one of: name, email, phone, country"
  | some _ =>
      if UserOnboarding_validate ev (alistSet st field (some value)) then
        "Valid " ++ field ++ ": " ++ value
      else
        "Invalid " ++ field ++ ": " ++ ev.errMsg (alistSet st field (some value))

/-- `validate_field` of `tools1.py`: validates against a copy of the
current session state (creating the session on first access, like every
tool that calls `_get_session_data`) and never writes to it. -/
def validate_field (ev : ExternalValidators) (m : SessionsMap) (sid field value : String) :
    String × SessionsMap :=
  (validate_core ev (_get_session_data m sid).1.onboarding_state field value,
   (_get_session_data m sid).2)

/-- `store_field` of `tools1.py` (283-314): rejects unknown keys, then
re-runs `validate_field` and writes the raw value only when the result
starts with `"Valid"`. -/
def store_field (ev : ExternalValidators) (m : SessionsMap) (sid field value : String) :
    String × SessionsMap :=
  match alistLookup (_get_session_data m sid).1.onboarding_state field with
  | none =>
      ("Invalid field: " ++ field ++ ". Must be one of: name, email, phone, country",
       (_get_session_data m sid).2)
  | some _ =>
      if pyStartsWith (validate_field ev (_get_session_data m sid).2 sid field value).1 "Valid" then
        (pyCapitalize field ++ " stored successfully: " ++ value,
         alistSet (validate_field ev (_get_session_data m sid).2 sid field value).2 sid
           { onboarding_state :=
               alistSet (_get_session_data m sid).1.onboarding_state field (some value),
             conversation_log := (_get_session_data m sid).1.conversation_log })
      else
        ("Cannot store invalid value: " ++
           (validate_field ev (_get_session_data m sid).2 sid field value).1,
         (validate_field ev (_get_session_data m sid).2 sid field value).2)

/-- `log_message` of `tools1.py` (190-214): unconditionally appends an
entry with the given speaker, the raw text and the current timestamp
(passed here as `now`). -/
def log_message (m : SessionsMap) (sid speaker text now : String) : String × SessionsMap :=
  ("Message logged successfully for session " ++ sid,
   alistSet (_get_session_data m sid).2 sid
     { onboarding_state := (_get_session_data m sid).1.onboarding_state,
       conversation_log :=
         (_get_session_data m sid).1.conversation_log ++
           [{ speaker := speaker, text := text, timestamp := now }] })

/-- Python truthiness of an optional string (`if not v`): `None` and the
empty string are falsy. -/
def truthyVal : Option String → Bool
  | none => false
  | some v => !(v == "")

/-- `is_onboarding_complete` of `tools1.py` (318-331): the missing list
collects every key whose value is falsy. -/
def is_onboarding_complete (m : SessionsMap) (sid : String) : String × SessionsMap :=
  match ((_get_session_data m sid).1.onboarding_state.filter
      (fun q => !truthyVal q.2)).map Prod.fst with
  | [] => ("Onboarding complete - all fields filled", (_get_session_data m sid).2)
  | missing => ("Onboarding incomplete. Missing: " ++ joinComma missing, (_get_session_data m sid).2)

/-- `get_summary` of `tools1.py` (334-349). -/
def get_summary (m : SessionsMap) (sid : String) : String × SessionsMap :=
  match (_get_session_data m sid).1.onboarding_state.filter (fun q => truthyVal q.2) with
  | [] => ("No onboarding data collected yet", (_get_session_data m sid).2)
  | filled =>
      ("Collected data: " ++
         joinComma (filled.map (fun q => pyCapitalize q.1 ++ ": " ++ q.2.getD "")),
       (_get_session_data m sid).2)

/-- Rendering of one field by `get_current_state`: the value when truthy,
otherwise `"not provided"`. -/
def displayVal : Option String → String
  | none => "not provided"
  | some v => if v = "" then "not provided" else v

/-- One `"Field: value"` part of the `get_current_state` output. -/
def statePart (q : String × Option String) : String :=
  pyCapitalize q.1 ++ ": " ++ displayVal q.2

/-- `get_current_state` of `tools1.py` (352-366). -/
def get_current_state (m : SessionsMap) (sid : String) : String × SessionsMap :=
  ("Current onboarding state: " ++
     joinComma ((_get_session_data m sid).1.onboarding_state.map statePart),
   (_get_session_data m sid).2)

/-- The on-disk JSON projection of a session.  The two payload members
are `Option`s because `load_session` reads them with `dict.get` and a
record written by hand may lack them; `save_session` always writes
both. -/
structure PersistedRecord where
  session_id : String
  onboarding_data : Option (List (String × Option String))
  conversation : Option (List TranscriptEntry)
  deriving DecidableEq

/-- What `load_session` finds at the session file path: no file, a file
whose opening or JSON parsing raises (with the exception text), or a
parsed record. -/
inductive FileContent where
  | absent
  | corrupt (err : String)
  | record (r : PersistedRecord)
  deriving DecidableEq

/-- `save_session` of `tools1.py` (83-106): snapshots the session (after
get-or-create) and writes it; an exception from the write is modelled by
`ioError`.  The written record is returned in place of the file system;
`none` means nothing was written. -/
def save_session (m : SessionsMap) (sid : String) (ioError : Option String) :
    String × SessionsMap × Option PersistedRecord :=
  match ioError with
  | some e => ("Failed to save session: " ++ e, (_get_session_data m sid).2, none)
  | none =>
      ("Session " ++ sid ++ " saved successfully",
       (_get_session_data m sid).2,
       some { session_id := sid,
              onboarding_data := some (_get_session_data m sid).1.onboarding_state,
              conversation := some (_get_session_data m sid).1.conversation_log })

/-- `load_session` of `tools1.py` (110-140): missing file and parse
failure leave the map untouched; a parsed record replaces the in-memory
session, with `dict.get` defaults applied per top-level key only. -/
def load_session (m : SessionsMap) (sid : String) (file : FileContent) :
    String × SessionsMap :=
  match file with
  | .absent => ("Session file not found for " ++ sid, m)
  | .corrupt e => ("Failed to load session: " ++ e, m)
  | .record r =>
      ("Session " ++ sid ++ " loaded successfully",
       alistSet m sid
         { onboarding_state := r.onboarding_data.getD default_onboarding,
           conversation_log := r.conversation.getD [] })

/-- Concrete instance of the external validators, used by the concrete
checks below (the claims proved for every `ExternalValidators` are
instantiated with it). -/
def ev0 : ExternalValidators :=
  { emailOk := fun _ => false, countryOk := fun _ => false, errMsg := fun _ => "validation error" }

/-- A well-formed record whose `onboarding_data` object is present but
lists only the `name` key, as a hand-written or truncated session file
may. -/
def sparseRecord : PersistedRecord :=
  { session_id := "s", onboarding_data := some [("name", some "x")], conversation := some [] }

theorem strDataAppend (s t : String) : (s ++ t).data = s.data ++ t.data := by
  cases s; cases t; rfl

theorem alistLookup_set_self {α : Type} (l : List (String × α)) (k : String) (a : α) :
    alistLookup (alistSet l k a) k = some a := by
  induction l with
  | nil => simp [alistSet, alistLookup]
  | cons p rest ih =>
      obtain ⟨k1, b⟩ := p
      by_cases h : k1 = k
      · simp [alistSet, alistLookup, h]
      · simp [alistSet, alistLookup, h, ih]

theorem alistLookup_set_ne {α : Type} (l : List (String × α)) (k t : String) (a : α)
    (h : t ≠ k) : alistLookup (alistSet l k a) t = alistLookup l t := by
  induction l with
  | nil => simp [alistSet, alistLookup, Ne.symm h]
  | cons p rest ih =>
      obtain ⟨k1, b⟩ := p
      by_cases h1 : k1 = k
      · simp [alistSet, alistLookup, h1, Ne.symm h]
      · simp [alistSet, alistLookup, h1, ih]

theorem alistLookup_append_some {α : Type} {l1 : List (String × α)} {k : String} {a : α}
    (l2 : List (String × α)) (h : alistLookup l1 k = some a) :
    alistLookup (l1 ++ l2) k = some a := by
  induction l1 with
  | nil => simp [alistLookup] at h
  | cons p rest ih =>
      obtain ⟨k1, b⟩ := p
      by_cases h1 : k1 = k
      · simp [alistLookup, h1] at h ⊢; exact h
      · simp [alistLookup, h1] at h ⊢; exact ih h

theorem alistLookup_append_none {α : Type} {l1 : List (String × α)} {k : String}
    (l2 : List (String × α)) (h : alistLookup l1 k = none) :
    alistLookup (l1 ++ l2) k = alistLookup l2 k := by
  induction l1 with
  | nil => simp [alistLookup]
  | cons p rest ih =>
      obtain ⟨k1, b⟩ := p
      by_cases h1 : k1 = k
      · simp [alistLookup, h1] at h
      · simp [alistLookup, h1] at h ⊢; exact ih h

theorem mem_of_alistLookup {α : Type} {l : List (String × α)} {k : String} {a : α}
    (h : alistLookup l k = some a) : (k, a) ∈ l := by
  induction l with
  | nil => simp [alistLookup] at h
  | cons p rest ih =>
      obtain ⟨k1, b⟩ := p
      by_cases h1 : k1 = k
      · simp [alistLookup, h1] at h
        subst h1
        subst h
        exact List.mem_cons_self _ _
      · simp [alistLookup, h1] at h
        exact List.mem_cons_of_mem _ (ih h)

theorem mem_alistSet_self {α : Type} (l : List (String × α)) (k : String) (a : α) :
    (k, a) ∈ alistSet l k a := by
  induction l with
  | nil => simp [alistSet]
  | cons p rest ih =>
      obtain ⟨k1, b⟩ := p
      by_cases h1 : k1 = k
      · simp [alistSet, h1]
      · simp [alistSet, h1]
        exact Or.inr ih

theorem gsd_of_lookup_some {m : SessionsMap} {sid : String} {d : SessionData}
    (h : alistLookup m sid = some d) : _get_session_data m sid = (d, m) := by
  unfold _get_session_data
  rw [h]

theorem gsd_of_lookup_none {m : SessionsMap} {sid : String}
    (h : alistLookup m sid = none) :
    _get_session_data m sid = (defaultSession, m ++ [(sid, defaultSession)]) := by
  unfold _get_session_data
  rw [h]

theorem gsd_fst (m : SessionsMap) (sid : String) :
    (_get_session_data m sid).1 = observeSession m sid := by
  unfold _get_session_data observeSession
  cases h : alistLookup m sid <;> simp [h]

theorem lookup_gsd_self (m : SessionsMap) (sid : String) :
    alistLookup (_get_session_data m sid).2 sid = some (observeSession m sid) := by
  unfold _get_session_data observeSession
  cases h : alistLookup m sid with
  | some d => simp [h]
  | none => simp [h, alistLookup_append_none _ h, alistLookup]

theorem observeSession_gsd (m : SessionsMap) (sid t : String) :
    observeSession (_get_session_data m sid).2 t = observeSession m t := by
  cases h : alistLookup m sid with
  | some d => rw [gsd_of_lookup_some h]
  | none =>
      rw [gsd_of_lookup_none h]
      unfold observeSession
      by_cases ht : t = sid
      · subst ht
        rw [alistLookup_append_none _ h, h]
        simp [alistLookup]
      · cases hmt : alistLookup m t with
        | some d2 => rw [alistLookup_append_some _ hmt]
        | none =>
            rw [alistLookup_append_none _ hmt]
            simp [alistLookup, Ne.symm ht]

theorem lookup_gsd_other {m : SessionsMap} {t : String} {d : SessionData} (sid : String)
    (h : alistLookup m t = some d) :
    alistLookup (_get_session_data m sid).2 t = some d := by
  cases h2 : alistLookup m sid with
  | some _ => rw [gsd_of_lookup_some h2]; exact h
  | none => rw [gsd_of_lookup_none h2]; exact alistLookup_append_some _ h

theorem gsd_idem (m : SessionsMap) (sid : String) :
    _get_session_data (_get_session_data m sid).2 sid
      = (observeSession m sid, (_get_session_data m sid).2) :=
  gsd_of_lookup_some (lookup_gsd_self m sid)

theorem observeSession_set_self (m : SessionsMap) (sid : String) (d : SessionData) :
    observeSession (alistSet m sid d) sid = d := by
  unfold observeSession
  rw [alistLookup_set_self]
  rfl

theorem observeSession_set_ne (m : SessionsMap) (sid t : String) (d : SessionData)
    (h : t ≠ sid) : observeSession (alistSet m sid d) t = observeSession m t := by
  unfold observeSession
  rw [alistLookup_set_ne _ _ _ _ h]

theorem psw_valid_msg (f v : String) :
    pyStartsWith ("Valid " ++ f ++ ": " ++ v) "Valid" = true := by
  unfold pyStartsWith
  rw [strDataAppend, strDataAppend, strDataAppend]
  rfl

theorem psw_invalid_field_msg (f : String) :
    pyStartsWith ("Invalid field: " ++ f ++ ". Must be one of: name, email, phone, country")
      "Valid" = false := by
  unfold pyStartsWith
  rw [strDataAppend, strDataAppend]
  rfl

theorem psw_invalid_msg (f e : String) :
    pyStartsWith ("Invalid " ++ f ++ ": " ++ e) "Valid" = false := by
  unfold pyStartsWith
  rw [strDataAppend, strDataAppend, strDataAppend]
  rfl

theorem complete_ne_incomplete (s : String) :
    "Onboarding incomplete. Missing: " ++ s ≠ "Onboarding complete - all fields filled" := by
  intro h
  have h2 := congrArg String.data h
  rw [strDataAppend] at h2
  have h3 := congrArg (fun l => l[11]?) h2
  have h4 : (some 'i' : Option Char) = some 'c' := h3
  exact absurd h4 (by decide)

theorem validate_field_fst (ev : ExternalValidators) (m : SessionsMap) (sid f v : String) :
    (validate_field ev m sid f v).1
      = validate_core ev (observeSession m sid).onboarding_state f v := by
  unfold validate_field
  rw [gsd_fst]

theorem validate_field_snd (ev : ExternalValidators) (m : SessionsMap) (sid f v : String) :
    (validate_field ev m sid f v).2 = (_get_session_data m sid).2 := rfl

theorem validate_inner (ev : ExternalValidators) (m : SessionsMap) (sid f v : String) :
    validate_field ev (_get_session_data m sid).2 sid f v
      = ((validate_field ev m sid f v).1, (_get_session_data m sid).2) := by
  unfold validate_field
  rw [gsd_idem, gsd_fst]

theorem validate_core_none (ev : ExternalValidators) {st : List (String × Option String)}
    {f : String} (v : String) (h : alistLookup st f = none) :
    validate_core ev st f v
      = "Invalid field: " ++ f ++ ". Must be one of: name, email, phone, country" := by
  unfold validate_core
  rw [h]

theorem validate_core_some_true (ev : ExternalValidators) {st : List (String × Option String)}
    {f v : String} {w : Option String} (hk : alistLookup st f = some w)
    (hv : UserOnboarding_validate ev (alistSet st f (some v)) = true) :
    validate_core ev st f v = "Valid " ++ f ++ ": " ++ v := by
  unfold validate_core
  rw [hk]
  simp [hv]

theorem validate_core_some_false (ev : ExternalValidators) {st : List (String × Option String)}
    {f v : String} {w : Option String} (hk : alistLookup st f = some w)
    (hv : UserOnboarding_validate ev (alistSet st f (some v)) = false) :
    validate_core ev st f v
      = "Invalid " ++ f ++ ": " ++ ev.errMsg (alistSet st f (some v)) := by
  unfold validate_core
  rw [hk]
  simp [hv]

theorem store_field_none (ev : ExternalValidators) {m : SessionsMap} {sid f : String}
    (v : String) (hk : alistLookup (observeSession m sid).onboarding_state f = none) :
    store_field ev m sid f v
      = ("Invalid field: " ++ f ++ ". Must be one of: name, email, phone, country",
         (_get_session_data m sid).2) := by
  unfold store_field
  rw [gsd_fst, hk]

theorem store_field_some_true (ev : ExternalValidators) {m : SessionsMap} {sid f v : String}
    {w : Option String} (hk : alistLookup (observeSession m sid).onboarding_state f = some w)
    (hv : pyStartsWith (validate_field ev m sid f v).1 "Valid" = true) :
    store_field ev m sid f v
      = (pyCapitalize f ++ " stored successfully: " ++ v,
         alistSet (_get_session_data m sid).2 sid
           { onboarding_state := alistSet (observeSession m sid).onboarding_state f (some v),
             conversation_log := (observeSession m sid).conversation_log }) := by
  unfold store_field
  rw [gsd_fst, hk, validate_inner]
  simp [hv]

theorem store_field_some_false (ev : ExternalValidators) {m : SessionsMap} {sid f v : String}
    {w : Option String} (hk : alistLookup (observeSession m sid).onboarding_state f = some w)
    (hv : pyStartsWith (validate_field ev m sid f v).1 "Valid" = false) :
    store_field ev m sid f v
      = ("Cannot store invalid value: " ++ (validate_field ev m sid f v).1,
         (_get_session_data m sid).2) := by
  unfold store_field
  rw [gsd_fst, hk, validate_inner]
  simp [hv]

theorem valid_value_nonempty {ev : ExternalValidators} {st : List (String × Option String)}
    {f v : String} (hf : f = "name" ∨ f = "email" ∨ f = "phone" ∨ f = "country")
    (hE : ev.emailOk "" = false) (hC : ev.countryOk "" = false)
    (hv : UserOnboarding_validate ev (alistSet st f (some v)) = true) : v ≠ "" := by
  intro hveq
  subst hveq
  have hmem := mem_alistSet_self st f (some "")
  have hall := List.all_eq_true.mp hv _ hmem
  have hrule : fieldRuleOk ev f "" = true := hall
  rcases hf with h | h | h | h
  · subst h
    have h2 : fieldRuleOk ev "name" "" = false := rfl
    rw [h2] at hrule
    exact Bool.noConfusion hrule
  · subst h
    have h2 : fieldRuleOk ev "email" "" = ev.emailOk "" := rfl
    rw [h2, hE] at hrule
    exact Bool.noConfusion hrule
  · subst h
    have h2 : fieldRuleOk ev "phone" "" = false := rfl
    rw [h2] at hrule
    exact Bool.noConfusion hrule
  · subst h
    have h2 : fieldRuleOk ev "country" "" = ev.countryOk "" := rfl
    rw [h2, hC] at hrule
    exact Bool.noConfusion hrule

/-- Claim C2: for every session state, save_session followed by
load_session of the written record into a fresh in-memory store
reconstructs a session observably equal to the original: the same four
(indeed all) onboarding field values and the same conversation-log entries
in the same order. -/
theorem save_load_roundtrip (m : SessionsMap) (sid : String) :
    (save_session m sid none).1 = "Session " ++ sid ++ " saved successfully"
    ∧ (save_session m sid none).2.2
        = some { session_id := sid,
                 onboarding_data := some (observeSession m sid).onboarding_state,
                 conversation := some (observeSession m sid).conversation_log }
    ∧ (load_session [] sid
        (FileContent.record
          { session_id := sid,
            onboarding_data := some (observeSession m sid).onboarding_state,
            conversation := some (observeSession m sid).conversation_log })).2
        = [(sid, observeSession m sid)]
    ∧ observeSession (load_session [] sid
        (FileContent.record
          { session_id := sid,
            onboarding_data := some (observeSession m sid).onboarding_state,
            conversation := some (observeSession m sid).conversation_log })).2 sid
        = observeSession m sid := by
  refine ⟨rfl, ?_, rfl, ?_⟩
  · have h : (save_session m sid none).2.2
        = some { session_id := sid,
                 onboarding_data := some (_get_session_data m sid).1.onboarding_state,
                 conversation := some (_get_session_data m sid).1.conversation_log } := rfl
    rw [h, gsd_fst]
  · have h : (load_session [] sid
        (FileContent.record
          { session_id := sid,
            onboarding_data := some (observeSession m sid).onboarding_state,
            conversation := some (observeSession m sid).conversation_log })).2
        = [(sid, observeSession m sid)] := rfl
    rw [h]
    unfold observeSession
    simp [alistLookup]

/-- Claim C3 (amended): log_message appends exactly one entry carrying the
given speaker and the raw text for every text, including the empty and
all-whitespace texts; the empty-after-trim skip exists only in
log_conversation_turn, not in log_message. -/
theorem log_message_always_appends (m : SessionsMap) (sid sp tx now : String) :
    (log_message m sid sp tx now).1 = "Message logged successfully for session " ++ sid
    ∧ (observeSession (log_message m sid sp tx now).2 sid).conversation_log
        = (observeSession m sid).conversation_log
            ++ [{ speaker := sp, text := tx, timestamp := now }]
    ∧ (observeSession (log_message m sid sp tx now).2 sid).onboarding_state
        = (observeSession m sid).onboarding_state := by
  have h2 : (log_message m sid sp tx now).2
      = alistSet (_get_session_data m sid).2 sid
          { onboarding_state := (observeSession m sid).onboarding_state,
            conversation_log := (observeSession m sid).conversation_log
              ++ [{ speaker := sp, text := tx, timestamp := now }] } := by
    unfold log_message
    rw [gsd_fst]
  refine ⟨rfl, ?_, ?_⟩ <;> rw [h2, observeSession_set_self]

/-- Claim C3 counterexample: log_message with an empty text is not a
no-op; it appends one entry whose text is empty. -/
theorem log_message_empty_text_appends :
    (observeSession (log_message [] "s" "user" "" "t0").2 "s").conversation_log
      = [{ speaker := "user", text := "", timestamp := "t0" }] := by decide

/-- Claim C5: the code validates name and phone on the raw value, without
trimming (pydantic v2 ignores the strip_whitespace keyword passed to
Field): the name value of a space followed by one letter has trimmed
length 1 yet is accepted, and a phone value with a leading space matches
the pattern after trimming yet is rejected. -/
theorem name_phone_rules_do_not_trim :
    nameOk " a" = true ∧ (pyStrip " a").length = 1
    ∧ phoneOk " +12" = false ∧ pyStrip " +12" = "+12" ∧ phoneOk "+12" = true
    ∧ (validate_field ev0 [] "s" "name" " a").1 = "Valid name:  a" := by decide

/-- Claim C6 counterexample: loading a record whose onboarding_data object
is present but holds only the name key leaves email an absent key in the
replaced session: a subsequent validate_field reports it as an invalid
field rather than finding a null value. -/
theorem load_sparse_record_cex :
    (observeSession (load_session [] "s" (FileContent.record sparseRecord)).2 "s").onboarding_state
      = [("name", some "x")]
    ∧ alistLookup (observeSession (load_session [] "s"
        (FileContent.record sparseRecord)).2 "s").onboarding_state "email" = none
    ∧ (validate_field ev0 (load_session [] "s" (FileContent.record sparseRecord)).2
        "s" "email" "a@b.co").1
      = "Invalid field: email. Must be one of: name, email, phone, country" := by decide

/-- Claim C6 (amended): load_session of a parsed record fully replaces the
in-memory session for that identifier (other sessions untouched) and never
crashes; the four-null default applies only when the onboarding_data
object is entirely absent from the record (the conversation log likewise
defaults to empty when its key is absent), while a partial onboarding_data
object is installed as-is, so a field absent from it remains an absent
key. -/
theorem load_replaces_session (m : SessionsMap) (sid : String) (r : PersistedRecord) :
    load_session m sid (FileContent.record r)
      = ("Session " ++ sid ++ " loaded successfully",
         alistSet m sid
           { onboarding_state := r.onboarding_data.getD default_onboarding,
             conversation_log := r.conversation.getD [] })
    ∧ observeSession (load_session m sid (FileContent.record r)).2 sid
        = { onboarding_state := r.onboarding_data.getD default_onboarding,
            conversation_log := r.conversation.getD [] }
    ∧ (∀ t, t ≠ sid → observeSession (load_session m sid (FileContent.record r)).2 t
        = observeSession m t)
    ∧ (r.onboarding_data = none →
       (observeSession (load_session m sid (FileContent.record r)).2 sid).onboarding_state
         = default_onboarding) := by
  refine ⟨rfl, ?_, ?_, ?_⟩
  · exact observeSession_set_self m sid _
  · intro t ht
    exact observeSession_set_ne m sid t _ ht
  · intro hr
    rw [show (load_session m sid (FileContent.record r)).2
          = alistSet m sid
              { onboarding_state := r.onboarding_data.getD default_onboarding,
                conversation_log := r.conversation.getD [] } from rfl,
        observeSession_set_self, hr]
    rfl

theorem load_replaces_session_witness :
    (observeSession (load_session [] "s"
        (FileContent.record { session_id := "s", onboarding_data := none,
                              conversation := some [] })).2 "s").onboarding_state
      = default_onboarding
    ∧ observeSession (load_session [] "s"
        (FileContent.record { session_id := "s", onboarding_data := none,
                              conversation := some [] })).2 "x"
      = observeSession [] "x" := by
  have h := load_replaces_session [] "s"
    { session_id := "s", onboarding_data := none, conversation := some [] }
  exact ⟨h.2.2.2 rfl, h.2.2.1 "x" (by decide)⟩

/-- Claim C8: a failing save or load returns a descriptive failure string
instead of propagating the fault; a failed save writes no record and a
failed load does not touch the map, so the observable state of every
session (as read through the store's get-or-create accessor, the only way
any operation reads it) is exactly what it was before the call. -/
theorem save_load_failure_preserves (m : SessionsMap) (sid e : String) :
    (save_session m sid (some e)).1 = "Failed to save session: " ++ e
    ∧ (save_session m sid (some e)).2.2 = none
    ∧ (∀ t, observeSession (save_session m sid (some e)).2.1 t = observeSession m t)
    ∧ load_session m sid (FileContent.corrupt e) = ("Failed to load session: " ++ e, m) := by
  refine ⟨rfl, rfl, ?_, rfl⟩
  intro t
  exact observeSession_gsd m sid t

/-- Claim C9: loading a session identifier that has no persisted record
returns the not-found result, leaves the map untouched, and the in-memory
state subsequently observed for that identifier is the default empty
state. -/
theorem load_absent_not_found (m : SessionsMap) (sid : String)
    (h : alistLookup m sid = none) :
    load_session m sid FileContent.absent = ("Session file not found for " ++ sid, m)
    ∧ observeSession m sid = defaultSession := by
  refine ⟨rfl, ?_⟩
  unfold observeSession
  rw [h]
  rfl

theorem load_absent_not_found_witness :
    load_session [] "unknown-id" FileContent.absent
      = ("Session file not found for unknown-id", [])
    ∧ observeSession [] "unknown-id" = defaultSession := by
  have h := load_absent_not_found [] "unknown-id" rfl
  exact ⟨h.1.trans (by decide), h.2⟩

/-- Claim C4 counterexample: a state in which all four fields are non-null
but name holds the empty string is reported incomplete with name listed as
missing, because the code tests Python truthiness, not nullness. -/
theorem complete_empty_string_cex :
    (is_onboarding_complete
        [("s", { onboarding_state :=
                   [("name", some ""), ("email", some "e@x.co"),
                    ("phone", some "+12"), ("country", some "Canada")],
                 conversation_log := [] })] "s").1
      = "Onboarding incomplete. Missing: name"
    ∧ ([some "", some "e@x.co", some "+12", some "Canada"] : List (Option String)).all
        Option.isSome = true := by decide

/-- Claim C4 (amended): with the four standard keys present,
is_onboarding_complete reports complete iff every field value is non-null
and non-empty (the code treats an empty string like null); otherwise it
reports exactly the fields whose value is null or empty, in field
order. -/
theorem onboarding_complete_iff_truthy (m : SessionsMap) (sid : String)
    (a b c d : Option String) (log : List TranscriptEntry)
    (h : alistLookup m sid
        = some { onboarding_state :=
                   [("name", a), ("email", b), ("phone", c), ("country", d)],
                 conversation_log := log }) :
    ((is_onboarding_complete m sid).1 = "Onboarding complete - all fields filled"
       ↔ (truthyVal a = true ∧ truthyVal b = true ∧ truthyVal c = true ∧ truthyVal d = true))
    ∧ (¬(truthyVal a = true ∧ truthyVal b = true ∧ truthyVal c = true ∧ truthyVal d = true) →
       (is_onboarding_complete m sid).1
         = "Onboarding incomplete. Missing: " ++ joinComma
             ((if truthyVal a then [] else ["name"])
               ++ (if truthyVal b then [] else ["email"])
               ++ (if truthyVal c then [] else ["phone"])
               ++ (if truthyVal d then [] else ["country"]))) := by
  have hp := gsd_of_lookup_some h
  cases ha : truthyVal a <;> cases hb : truthyVal b <;> cases hc : truthyVal c <;>
    cases hd : truthyVal d <;>
      simp [is_onboarding_complete, hp, List.filter, ha, hb, hc, hd, joinComma,
        complete_ne_incomplete]

theorem onboarding_complete_iff_truthy_witness :
    (is_onboarding_complete
        [("s", { onboarding_state :=
                   [("name", some "Jo"), ("email", none), ("phone", none), ("country", none)],
                 conversation_log := [] })] "s").1
      = "Onboarding incomplete. Missing: email, phone, country" := by
  have h := onboarding_complete_iff_truthy
      [("s", { onboarding_state :=
                 [("name", some "Jo"), ("email", none), ("phone", none), ("country", none)],
               conversation_log := [] })]
      "s" (some "Jo") none none none [] (by decide)
  exact (h.2 (by decide)).trans (by decide)

/-- Claim C7 counterexample: validating with a fresh store does create a
session entry for the current identifier (get-or-create on first access),
so validate_field is not entirely free of store mutation. -/
theorem validate_creates_entry_cex :
    (validate_field ev0 [] "s" "name" "ab").2 = [("s", defaultSession)]
    ∧ [("s", defaultSession)] ≠ ([] : SessionsMap) := by decide

/-- Claim C7 (amended): validate_field is deterministic (its result string
is a function of field, value and the observed state of the current
session) and writes nothing: every existing session entry is untouched and
the observable state of every session is unchanged; its only effect on the
store is the get-or-create insertion of the default empty entry for the
current session identifier on first access. -/
theorem validate_deterministic_pure (ev : ExternalValidators) (m1 m2 : SessionsMap)
    (sid f v : String) (h : observeSession m1 sid = observeSession m2 sid) :
    (validate_field ev m1 sid f v).1 = (validate_field ev m2 sid f v).1
    ∧ (∀ t, observeSession (validate_field ev m1 sid f v).2 t = observeSession m1 t)
    ∧ (∀ t d, alistLookup m1 t = some d →
        alistLookup (validate_field ev m1 sid f v).2 t = some d) := by
  refine ⟨?_, ?_, ?_⟩
  · rw [validate_field_fst, validate_field_fst, h]
  · intro t
    exact observeSession_gsd m1 sid t
  · intro t d hd
    exact lookup_gsd_other sid hd

theorem validate_deterministic_pure_witness :
    observeSession (validate_field ev0 [] "s" "name" "ab").2 "s" = defaultSession := by
  have h := validate_deterministic_pure ev0 [] [] "s" "name" "ab" rfl
  exact (h.2.1 "s").trans (by decide)

/-- Claim C10: every zero-argument convenience operation invoked before
set_current_session_id was ever called resolves to the initial value of
current_session_id, the empty string, does not fault, creates an ordinary
session stored under that empty-string identifier on first access, and
returns its normal result string. -/
theorem conv_ops_default_session (ev : ExternalValidators) (m : SessionsMap) (now : String)
    (h : alistLookup m current_session_id = none) :
    (get_current_state m current_session_id).1
      = "Current onboarding state: Name: not provided, Email: not provided, Phone: not provided, Country: not provided"
    ∧ (get_current_state m current_session_id).2 = m ++ [(current_session_id, defaultSession)]
    ∧ (is_onboarding_complete m current_session_id).1
      = "Onboarding incomplete. Missing: name, email, phone, country"
    ∧ (get_summary m current_session_id).1 = "No onboarding data collected yet"
    ∧ (validate_field ev m current_session_id "name" "Jo").1 = "Valid name: Jo"
    ∧ (store_field ev m current_session_id "name" "Jo").1 = "Name stored successfully: Jo"
    ∧ alistLookup (observeSession (store_field ev m current_session_id "name" "Jo").2
        current_session_id).onboarding_state "name" = some (some "Jo")
    ∧ (log_message m current_session_id "user" "hi" now).1
      = "Message logged successfully for session "
    ∧ (observeSession (log_message m current_session_id "user" "hi" now).2
        current_session_id).conversation_log
      = [{ speaker := "user", text := "hi", timestamp := now }] := by
  have hobs : observeSession m current_session_id = defaultSession := by
    unfold observeSession
    rw [h]
    rfl
  have hgsd := gsd_of_lookup_none h
  have hval : (validate_field ev m current_session_id "name" "Jo").1 = "Valid name: Jo" := by
    rw [validate_field_fst, hobs]
    rfl
  have hpsw : pyStartsWith (validate_field ev m current_session_id "name" "Jo").1 "Valid"
      = true := by
    rw [hval]
    rfl
  have hk : alistLookup (observeSession m current_session_id).onboarding_state "name"
      = some none := by
    rw [hobs]
    rfl
  have hst := store_field_some_true ev hk hpsw
  refine ⟨?_, ?_, ?_, ?_, hval, ?_, ?_, rfl, ?_⟩
  · unfold get_current_state
    rw [hgsd]
    rfl
  · unfold get_current_state
    rw [hgsd]
  · unfold is_onboarding_complete
    rw [hgsd]
    rfl
  · unfold get_summary
    rw [hgsd]
    rfl
  · rw [hst]
    simp [pyCapitalize]
  · simp only [hst, observeSession_set_self]
    rw [hobs]
    rfl
  · have hl : (log_message m current_session_id "user" "hi" now).2
        = alistSet (_get_session_data m current_session_id).2 current_session_id
            { onboarding_state := (observeSession m current_session_id).onboarding_state,
              conversation_log := (observeSession m current_session_id).conversation_log
                ++ [{ speaker := "user", text := "hi", timestamp := now }] } := by
      unfold log_message
      rw [gsd_fst]
    rw [hl, observeSession_set_self, hobs]
    rfl

theorem conv_ops_default_session_witness :
    (get_current_state [] current_session_id).1
      = "Current onboarding state: Name: not provided, Email: not provided, Phone: not provided, Country: not provided"
    ∧ (store_field ev0 [] current_session_id "name" "Jo").1
      = "Name stored successfully: Jo" := by
  have h := conv_ops_default_session ev0 [] "t0" rfl
  exact ⟨h.1, h.2.2.2.2.2.1⟩

/-- Claim C1: for each of the four onboarding fields f, every candidate
value v and every current session state, store_field succeeds exactly when
validate_field does: when validate_field answers Valid, store_field
returns its stored-successfully result, the stored value of f becomes v,
and get_current_state subsequently renders f as v (v is displayed as
itself and the rendered state parts contain the part for f and v); when
validate_field does not answer Valid, store_field returns one of its two
rejection strings and the stored value of f is unchanged. -/
theorem store_iff_validate (ev : ExternalValidators) (m : SessionsMap) (sid f v : String)
    (hf : f = "name" ∨ f = "email" ∨ f = "phone" ∨ f = "country")
    (hE : ev.emailOk "" = false) (hC : ev.countryOk "" = false) :
    (pyStartsWith (validate_field ev m sid f v).1 "Valid" = true →
       (store_field ev m sid f v).1 = pyCapitalize f ++ " stored successfully: " ++ v
       ∧ alistLookup (observeSession (store_field ev m sid f v).2 sid).onboarding_state f
           = some (some v)
       ∧ displayVal (some v) = v
       ∧ (pyCapitalize f ++ ": " ++ v)
           ∈ (observeSession (store_field ev m sid f v).2 sid).onboarding_state.map statePart)
    ∧ (pyStartsWith (validate_field ev m sid f v).1 "Valid" = false →
       ((store_field ev m sid f v).1
           = "Invalid field: " ++ f ++ ". Must be one of: name, email, phone, country"
         ∨ (store_field ev m sid f v).1
           = "Cannot store invalid value: " ++ (validate_field ev m sid f v).1)
       ∧ alistLookup (observeSession (store_field ev m sid f v).2 sid).onboarding_state f
           = alistLookup (observeSession m sid).onboarding_state f) := by
  cases hk : alistLookup (observeSession m sid).onboarding_state f with
  | none =>
      have hvres : (validate_field ev m sid f v).1
          = "Invalid field: " ++ f ++ ". Must be one of: name, email, phone, country" := by
        rw [validate_field_fst]
        exact validate_core_none ev v hk
      have hpsw : pyStartsWith (validate_field ev m sid f v).1 "Valid" = false := by
        rw [hvres]
        exact psw_invalid_field_msg f
      constructor
      · intro hcontra
        rw [hpsw] at hcontra
        exact Bool.noConfusion hcontra
      · intro _
        have hst := store_field_none ev v hk
        refine ⟨Or.inl (by rw [hst]), ?_⟩
        simp only [hst]
        rw [observeSession_gsd]
        exact hk
  | some w =>
      cases hv : UserOnboarding_validate ev
          (alistSet (observeSession m sid).onboarding_state f (some v)) with
      | true =>
          have hvres : (validate_field ev m sid f v).1 = "Valid " ++ f ++ ": " ++ v := by
            rw [validate_field_fst]
            exact validate_core_some_true ev hk hv
          have hpsw : pyStartsWith (validate_field ev m sid f v).1 "Valid" = true := by
            rw [hvres]
            exact psw_valid_msg f v
          have hne : v ≠ "" := valid_value_nonempty hf hE hC hv
          have hst := store_field_some_true ev hk hpsw
          constructor
          · intro _
            refine ⟨by rw [hst], ?_, ?_, ?_⟩
            · simp only [hst, observeSession_set_self]
              exact alistLookup_set_self _ _ _
            · simp [displayVal, hne]
            · simp only [hst, observeSession_set_self]
              refine List.mem_map.mpr ⟨(f, some v), mem_alistSet_self _ _ _, ?_⟩
              simp [statePart, displayVal, hne]
          · intro hcontra
            rw [hpsw] at hcontra
            exact Bool.noConfusion hcontra
      | false =>
          have hvres : (validate_field ev m sid f v).1
              = "Invalid " ++ f ++ ": "
                  ++ ev.errMsg (alistSet (observeSession m sid).onboarding_state f (some v)) := by
            rw [validate_field_fst]
            exact validate_core_some_false ev hk hv
          have hpsw : pyStartsWith (validate_field ev m sid f v).1 "Valid" = false := by
            rw [hvres]
            exact psw_invalid_msg f _
          have hst := store_field_some_false ev hk hpsw
          constructor
          · intro hcontra
            rw [hpsw] at hcontra
            exact Bool.noConfusion hcontra
          · intro _
            refine ⟨Or.inr (by rw [hst]), ?_⟩
            simp only [hst]
            rw [observeSession_gsd]
            exact hk

theorem store_iff_validate_witness :
    (store_field ev0 [] "s" "name" "Jo").1 = "Name stored successfully: Jo" := by
  have h := store_iff_validate ev0 [] "s" "name" "Jo" (Or.inl rfl) rfl rfl
  exact ((h.1 (by decide)).1).trans (by decide)
